import Mathlib

/-!
Verification of the issue claim lifecycle of the osc-platform repository.

The frontend client logic is embedded from
`src/frontend/src/components/issues/IssueDetailClient.tsx`,
`src/frontend/src/components/issues/CountdownTimer.tsx` and the result
types in `src/frontend/src/types/ai.ts` / `src/frontend/src/types/dashboard.ts`.
The server-side Claim Manager (the `@/lib/issues-api` module and the
backend it calls) is not part of the shipped sources; where a claim
depends on it, it is modelled from the specification (see the
definitions whose doc comment starts with `Modelled from the spec:`).
-/

namespace OSC

/-- Issue status, from `IssueStatus` in `src/frontend/src/types/dashboard.ts`:
`available | claimed | completed | closed`. -/
inductive IssueStatus where
  | available
  | claimed
  | completed
  | closed
deriving DecidableEq, Repr

/-- The claim-relevant fields of `interface Issue` in
`src/frontend/src/types/dashboard.ts` (lines 66-85).  Nullable TS fields
(`number | null`, `string | null`) become `Option`; ISO timestamp strings
are kept as strings, exactly as the client stores them. -/
structure Issue where
  id : Nat
  status : IssueStatus
  claimed_by : Option Nat
  claimed_at : Option String
  claim_expires_at : Option String
  difficulty_level : Option String
deriving DecidableEq, Repr

/-- JS truthiness of a `string | null | undefined` value: `null`,
`undefined` and the empty string are falsy. -/
def jsTruthy : Option String → Bool
  | none => false
  | some s => s ≠ ""

/-- The JS expression `a || b` on `string | null` values. -/
def jsOr (a b : Option String) : Option String :=
  if jsTruthy a then a else b

/-- `ClaimResult` from `src/frontend/src/types/ai.ts` (lines 24-30):
optional TS fields become `Option`. -/
structure ClaimResult where
  success : Bool
  message : String
  issue_id : Option Nat
  claimed_at : Option String
  claim_expires_at : Option String
deriving DecidableEq, Repr

/-- `ReleaseResult` from `src/frontend/src/types/ai.ts` (lines 32-36). -/
structure ReleaseResult where
  success : Bool
  message : String
  issue_id : Option Nat
deriving DecidableEq, Repr

/-- `ExtensionResult` from `src/frontend/src/types/ai.ts` (lines 38-43):
the new expiry is carried by the optional field `new_expiration`. -/
structure ExtensionResult where
  success : Bool
  message : String
  issue_id : Option Nat
  new_expiration : Option String
deriving DecidableEq, Repr

/-- The state update performed by `handleClaim` in
`IssueDetailClient.tsx` (lines 43-68) once `claimIssue` resolves with
`result`: on `result.success` it sets
`status: 'claimed', claimed_by: currentUserId,
claimed_at: result.claimed_at || new Date().toISOString(),
claim_expires_at: result.claim_expires_at || null`;
otherwise the issue state is untouched.  `nowISO` stands for
`new Date().toISOString()`. -/
def handleClaim (issue : Issue) (currentUserId : Nat) (nowISO : String)
    (result : ClaimResult) : Issue :=
  if result.success then
    { issue with
      status := .claimed
      claimed_by := some currentUserId
      claimed_at := jsOr result.claimed_at (some nowISO)
      claim_expires_at := jsOr result.claim_expires_at none }
  else issue

/-- The state update performed by `handleRelease` in
`IssueDetailClient.tsx` (lines 70-95): on `result.success` it sets
`status: 'available'` and nulls `claimed_by`, `claimed_at` and
`claim_expires_at`. -/
def handleRelease (issue : Issue) (result : ReleaseResult) : Issue :=
  if result.success then
    { issue with
      status := .available
      claimed_by := none
      claimed_at := none
      claim_expires_at := none }
  else issue

/-- Outcome of one run of `handleExtend`: the resulting issue state,
whether `extendClaimDeadline` was invoked, and the error banner set. -/
structure ExtendRun where
  issue : Issue
  apiCalled : Bool
  error : Option String
deriving DecidableEq, Repr

/-- `handleExtend` in `IssueDetailClient.tsx` (lines 97-128): if
`justification.length < 10` it sets the error banner and returns before
calling the API; otherwise it calls `extendClaimDeadline` and, when the
`result.success` flag is set, updates only
`claim_expires_at: result.new_expiration || issue.claim_expires_at`. -/
def handleExtend (issue : Issue) (justification : String)
    (result : ExtensionResult) : ExtendRun :=
  if justification.length < 10 then
    { issue := issue
      apiCalled := false
      error := some "Please provide a justification (at least 10 characters)" }
  else
    { issue :=
        if result.success then
          { issue with
            claim_expires_at := jsOr result.new_expiration issue.claim_expires_at }
        else issue
      apiCalled := true
      error := none }

/-- `handlePRSuccess` in `IssueDetailClient.tsx` (lines 134-145): marks
the issue `completed`; no other field of the issue is written. -/
def handlePRSuccess (issue : Issue) : Issue :=
  { issue with status := .completed }

/-- ASCII whitespace skipped by JS `parseInt` before reading the number. -/
def isJsSpace (c : Char) : Bool :=
  c = ' ' || c = '\t' || c = '\n' || c = '\r' || c = '\x0b' || c = '\x0c'

/-- Is `c` a digit of base `b` (10 or 16)? -/
def isDigitBase (b : Nat) (c : Char) : Bool :=
  if b = 16 then c.isDigit || ('a' ≤ c && c ≤ 'f') || ('A' ≤ c && c ≤ 'F')
  else c.isDigit

/-- Numeric value of a digit character (base ≤ 16). -/
def digitVal (c : Char) : Nat :=
  if c.isDigit then c.toNat - 48
  else if 'a' ≤ c && c ≤ 'f' then c.toNat - 87
  else if 'A' ≤ c && c ≤ 'F' then c.toNat - 55
  else 0

/-- Value of a digit string in base `b`. -/
def digitsToNat (b : Nat) (ds : List Char) : Nat :=
  ds.foldl (fun a c => a * b + digitVal c) 0

/-- JS `parseInt(s)` with no radix argument: skip leading whitespace,
read an optional sign, detect a `0x`/`0X` hex marker, then take the
longest run of digits of the selected base; `none` stands for `NaN`
(no digits at all). -/
def jsParseInt (s : String) : Option Int :=
  let cs := s.toList.dropWhile isJsSpace
  let signAndRest : Bool × List Char :=
    match cs with
    | '-' :: t => (true, t)
    | '+' :: t => (false, t)
    | _ => (false, cs)
  let baseAndRest : Nat × List Char :=
    match signAndRest.2 with
    | '0' :: 'x' :: t => (16, t)
    | '0' :: 'X' :: t => (16, t)
    | _ => (10, signAndRest.2)
  let ds := baseAndRest.2.takeWhile (isDigitBase baseAndRest.1)
  if ds.isEmpty then none
  else
    let n : Int := (digitsToNat baseAndRest.1 ds : Nat)
    some (if signAndRest.1 then -n else n)

/-- The `onChange` handler of the extension-days number input in
`IssueDetailClient.tsx` (line 384):
`setExtensionDays(parseInt(e.target.value) || 1)` — a `NaN` parse and a
parse of `0` (both falsy) are replaced by `1`, anything else is kept. -/
def extensionDaysOnChange (value : String) : Int :=
  match jsParseInt value with
  | none => 1
  | some n => if n = 0 then 1 else n

/-- Rendered countdown: the `isExpired` flag and the `timeRemaining`
text of `CountdownTimer`. -/
structure TimerView where
  isExpired : Bool
  text : String
deriving DecidableEq, Repr

/-- The day/hour/minute remaining-time text of `calculateTimeRemaining`
in `CountdownTimer.tsx` (lines 40-46 of the component body):
`days > 0` gives `"Nd Mh"`, else `hours > 0` gives `"Nh Mm"`, else
`"Nm"`. -/
def renderRemaining (days hours minutes : Int) : String :=
  if 0 < days then s!"{days}d {hours}h"
  else if 0 < hours then s!"{hours}h {minutes}m"
  else s!"{minutes}m"

/-- `calculateTimeRemaining` in `CountdownTimer.tsx` (lines 15-37 of the
file): `diff = expiry - now` in milliseconds; `diff <= 0` renders
`'Expired'` and sets the expired flag, otherwise the floor-divided
day/hour/minute components are rendered.  `Math.floor(diff / k)` is
`Int.fdiv diff k`, and for the positive `diff` of that branch the JS
`%` agrees with `Int.emod`. -/
def calculateTimeRemaining (nowMs expiryMs : Int) : TimerView :=
  let diff := expiryMs - nowMs
  if diff ≤ 0 then { isExpired := true, text := "Expired" }
  else
    let days := diff.fdiv (1000 * 60 * 60 * 24)
    let hours := (diff % (1000 * 60 * 60 * 24)).fdiv (1000 * 60 * 60)
    let minutes := (diff % (1000 * 60 * 60)).fdiv (1000 * 60)
    { isExpired := false, text := renderRemaining days hours minutes }

/-- Deserialisation of an extension response body into `ExtensionResult`:
TS reads each interface field by name from the JSON object
(`src/frontend/src/types/ai.ts` lines 38-43), so `new_expiration` is
bound to the value stored under the key `"new_expiration"`.  The object
is a list of field-name / value pairs. -/
def extensionResultOfJson (success : Bool) (message : String)
    (fields : List (String × String)) : ExtensionResult :=
  { success := success
    message := message
    issue_id := none
    new_expiration := (fields.find? (fun p => p.1 == "new_expiration")).map Prod.snd }

/-- The claim-lifecycle invariant of the spec data model:
`claimed_by` is present iff `status == claimed`, and `claim_expires_at`
is present iff `claimed_by` is present. -/
def Inv (s : Issue) : Prop :=
  (s.claimed_by.isSome ↔ s.status = .claimed) ∧
  (s.claim_expires_at.isSome ↔ s.claimed_by.isSome)

instance (s : Issue) : Decidable (Inv s) := by
  unfold Inv
  infer_instance

/-- One user-interface step on the issue state held by
`IssueDetailClient`.  The guards are the component's rendering
conditions: the claim button is shown only when `status === 'available'`
(line 282), and the release / extend / PR-submission controls only when
`issue.claimed_by === currentUserId` (lines 40, 292, 345). -/
inductive ClientStep : Issue → Issue → Prop where
  | claim (issue : Issue) (uid : Nat) (nowISO : String) (result : ClaimResult)
      (hAvail : issue.status = .available) :
      ClientStep issue (handleClaim issue uid nowISO result)
  | release (issue : Issue) (uid : Nat) (result : ReleaseResult)
      (hOwn : issue.claimed_by = some uid) :
      ClientStep issue (handleRelease issue result)
  | extend (issue : Issue) (uid : Nat) (justification : String)
      (result : ExtensionResult) (hOwn : issue.claimed_by = some uid) :
      ClientStep issue (handleExtend issue justification result).issue
  | prSuccess (issue : Issue) (uid : Nat) (hOwn : issue.claimed_by = some uid) :
      ClientStep issue (handlePRSuccess issue)

/-- Issue states reachable from `s` through the claim, release, extend
and PR-completion operations. -/
def ClientReach : Issue → Issue → Prop :=
  Relation.ReflTransGen ClientStep

/-- A claim response respecting the API contract of the spec
(`claim -> {success, claimed_at, claim_expires_at}`): a success response
carries both timestamps. -/
def ClaimResultWf (r : ClaimResult) : Prop :=
  r.success = true → (jsTruthy r.claimed_at = true ∧ jsTruthy r.claim_expires_at = true)

/-- As `ClientStep`, but without the PR-completion step, and with claim
responses restricted to the API contract `ClaimResultWf`. -/
inductive ClientStepCRE : Issue → Issue → Prop where
  | claim (issue : Issue) (uid : Nat) (nowISO : String) (result : ClaimResult)
      (hAvail : issue.status = .available) (hWf : ClaimResultWf result) :
      ClientStepCRE issue (handleClaim issue uid nowISO result)
  | release (issue : Issue) (uid : Nat) (result : ReleaseResult)
      (hOwn : issue.claimed_by = some uid) :
      ClientStepCRE issue (handleRelease issue result)
  | extend (issue : Issue) (uid : Nat) (justification : String)
      (result : ExtensionResult) (hOwn : issue.claimed_by = some uid) :
      ClientStepCRE issue (handleExtend issue justification result).issue

/-- Issue states reachable through claim, release and extend only. -/
def ClientReachCRE : Issue → Issue → Prop :=
  Relation.ReflTransGen ClientStepCRE

/-! ### The server-side Claim Manager, modelled from the spec

The `@/lib/issues-api` module and the backend REST service it calls are
not among the shipped sources; only their callers
(`IssueDetailClient.tsx`) and result types (`src/frontend/src/types/ai.ts`)
are.  The definitions below model that missing Claim Manager from the
specification. -/

/-- Server-side issue record; timestamps are epoch milliseconds. -/
structure SIssue where
  status : IssueStatus
  claimed_by : Option Nat
  claimed_at : Option Int
  claim_expires_at : Option Int
deriving DecidableEq, Repr

/-- Outcome of a `claim` call (spec §6:
`claim -> {success, claimed_at, claim_expires_at} | error{AlreadyClaimed, NotClaimable}`). -/
inductive ClaimOutcome where
  | ok (claimed_at claim_expires_at : Int)
  | alreadyClaimed
  | notClaimable
deriving DecidableEq, Repr

/-- Outcome of an `extend` call (spec §6:
`extend -> {success, new_expires_at} | error{NotClaimed, NotOwner, InvalidDuration, InvalidJustification}`). -/
inductive ExtendOutcome where
  | ok (new_expires_at : Int)
  | notClaimed
  | notOwner
  | invalidDuration
  | invalidJustification
deriving DecidableEq, Repr

/-- Modelled from the spec: the Claim Manager's `claim(issue_id, user_id)`
as an atomic conditional update (§4.3: set
`status=claimed, claimed_by=X, claimed_at=now, expires_at=now+base`
WHERE `status=available`, zero rows affected on a `Claimed` row is
`AlreadyClaimed`; §4.1: `Completed`/`Closed` give `NotClaimable`).
`base` is the difficulty-selected base lease duration (§4.2). -/
def serverClaim (s : SIssue) (uid : Nat) (now base : Int) : SIssue × ClaimOutcome :=
  match s.status with
  | .available =>
      ({ status := .claimed
         claimed_by := some uid
         claimed_at := some now
         claim_expires_at := some (now + base) },
       .ok now (now + base))
  | .claimed => (s, .alreadyClaimed)
  | .completed => (s, .notClaimable)
  | .closed => (s, .notClaimable)

/-- Milliseconds per day. -/
def msPerDay : Int := 1000 * 60 * 60 * 24

/-- Modelled from the spec: the Claim Manager's
`extend(issue_id, user_id, days, justification)` (§4.1, §4.2, §6).
It fails with `NotClaimed` when the state is not `Claimed`, `NotOwner`
when the claim holder differs, `InvalidDuration` when `days` is outside
1–14, `InvalidJustification` when the justification has fewer than 10
characters (the spec fixes no order between the two validations); on
success `new_expires_at = current_expires_at + requested_days`.
`msPerDay` converts the requested days to milliseconds. -/
def serverExtend (s : SIssue) (uid : Nat) (days : Int) (justification : String) :
    SIssue × ExtendOutcome :=
  if s.status ≠ .claimed then (s, .notClaimed)
  else if s.claimed_by ≠ some uid then (s, .notOwner)
  else if days < 1 ∨ 14 < days then (s, .invalidDuration)
  else if justification.length < 10 then (s, .invalidJustification)
  else
    match s.claim_expires_at with
    | some e =>
        ({ s with claim_expires_at := some (e + days * msPerDay) },
         .ok (e + days * msPerDay))
    | none => (s, .notClaimed)

/-- Modelled from the spec: the storage layer totally orders competing
conditional updates (§5), so a burst of concurrent `claim` calls is a
sequence of `serverClaim` steps in some arrival order.  `runClaims`
applies the calls `(uid, now)` in that order and collects every
caller's outcome. -/
def runClaims (s : SIssue) (reqs : List (Nat × Int)) (base : Int) :
    SIssue × List ClaimOutcome :=
  match reqs with
  | [] => (s, [])
  | (u, t) :: rest =>
      let step := serverClaim s u t base
      let others := runClaims step.1 rest base
      (others.1, step.2 :: others.2)

/-! ### Concrete example values (used by witnesses) -/

/-- An available issue with no claim data. -/
def exAvail : Issue :=
  { id := 1, status := .available, claimed_by := none, claimed_at := none
    claim_expires_at := none, difficulty_level := some "easy" }

/-- An issue claimed by user 1, as in the component tests. -/
def exClaimed : Issue :=
  { id := 1, status := .claimed, claimed_by := some 1
    claimed_at := some "2024-01-01T00:00:00Z"
    claim_expires_at := some "2024-01-08T00:00:00Z"
    difficulty_level := some "easy" }

/-- A successful claim response, as mocked in `PRSubmissionForm.test.tsx`. -/
def exClaimOk : ClaimResult :=
  { success := true, message := "Issue claimed successfully", issue_id := some 1
    claimed_at := some "2024-01-01T00:00:00Z"
    claim_expires_at := some "2024-01-08T00:00:00Z" }

/-- A successful release response. -/
def exRelOk : ReleaseResult :=
  { success := true, message := "Issue released successfully", issue_id := some 1 }

/-- A successful extension response, as mocked in `PRSubmissionForm.test.tsx`. -/
def exExtOk : ExtensionResult :=
  { success := true, message := "Deadline extended", issue_id := some 1
    new_expiration := some "2024-01-15T00:00:00Z" }

/-- An available server-side issue record. -/
def exSAvail : SIssue :=
  { status := .available, claimed_by := none, claimed_at := none
    claim_expires_at := none }

/-- A server-side issue record claimed by user 42, expiring 7 days after 0. -/
def exSClaimed : SIssue :=
  { status := .claimed, claimed_by := some 42, claimed_at := some 0
    claim_expires_at := some (7 * msPerDay) }

/-! ### Helper lemmas -/

lemma isSome_of_jsTruthy {a : Option String} (h : jsTruthy a = true) :
    a.isSome = true := by
  cases a with
  | none => simp [jsTruthy] at h
  | some s => rfl

lemma jsOr_isSome_right {a b : Option String} (hb : b.isSome = true) :
    (jsOr a b).isSome = true := by
  unfold jsOr
  by_cases h : jsTruthy a = true
  · simp [h, isSome_of_jsTruthy h]
  · simp [h, hb]

lemma clientStepCRE_inv {s s' : Issue} (h : ClientStepCRE s s') (hInv : Inv s) :
    Inv s' := by
  cases h with
  | claim uid nowISO result hAvail hWf =>
      unfold handleClaim
      by_cases hs : result.success = true
      · have hTr := (hWf hs).2
        simp only [hs, if_true]
        refine ⟨by simp, ?_⟩
        have : (jsOr result.claim_expires_at none).isSome = true := by
          unfold jsOr
          simp [hTr, isSome_of_jsTruthy hTr]
        simp [this]
      · simp only [hs, if_false]
        exact hInv
  | release uid result hOwn =>
      unfold handleRelease
      by_cases hs : result.success = true
      · simp [hs, Inv]
      · simp only [hs, if_false]
        exact hInv
  | extend uid justification result hOwn =>
      unfold handleExtend
      by_cases hj : justification.length < 10
      · simp only [hj, if_true]
        exact hInv
      · simp only [hj, if_false]
        by_cases hs : result.success = true
        · simp only [hs, if_true]
          refine ⟨hInv.1, ?_⟩
          have hcb : s.claimed_by.isSome = true := by simp [hOwn]
          have hexp : s.claim_expires_at.isSome = true := hInv.2.mpr hcb
          simp [jsOr_isSome_right hexp, hcb]
        · simp only [hs, if_false]
          exact hInv

lemma runClaims_claimed (s : SIssue) (reqs : List (Nat × Int)) (base : Int)
    (h : s.status = .claimed) :
    runClaims s reqs base = (s, reqs.map (fun _ => ClaimOutcome.alreadyClaimed)) := by
  induction reqs with
  | nil => simp [runClaims]
  | cons r rest ih =>
      obtain ⟨u, t⟩ := r
      simp [runClaims, serverClaim, h, ih]

/-- Does a `ClaimOutcome` report success? -/
def ClaimOutcome.isOk : ClaimOutcome → Bool
  | .ok _ _ => true
  | _ => false

lemma countP_isOk_const_already (l : List (Nat × Int)) :
    (l.map (fun _ => ClaimOutcome.alreadyClaimed)).countP ClaimOutcome.isOk = 0 := by
  induction l with
  | nil => rfl
  | cons r rest ih => simp [List.countP_cons, ClaimOutcome.isOk, ih]

/-! ### Claim theorems -/

/-- C1: an extend request whose justification is shorter than 10
characters is rejected entirely — the error banner is set, the API is
never called, and the issue (in particular `claim_expires_at`) is left
unchanged; a request whose justification has length at least 10 is not
rejected on justification grounds and proceeds to the API call. -/
theorem C1_extend_justification_gate (issue : Issue) (justification : String)
    (result : ExtensionResult) :
    (justification.length < 10 →
      handleExtend issue justification result =
        { issue := issue
          apiCalled := false
          error := some "Please provide a justification (at least 10 characters)" }) ∧
    (10 ≤ justification.length →
      (handleExtend issue justification result).apiCalled = true ∧
      (handleExtend issue justification result).error = none) := by
  constructor
  · intro h
    simp [handleExtend, h]
  · intro h
    simp [handleExtend, Nat.not_lt.mpr h]

/-- Witness for C1 at a justification of length 9 and one of length 24. -/
theorem C1_extend_justification_gate_witness :
    handleExtend exClaimed "too short" exExtOk =
      { issue := exClaimed
        apiCalled := false
        error := some "Please provide a justification (at least 10 characters)" } ∧
    (handleExtend exClaimed "I need more time to test" exExtOk).apiCalled = true :=
  ⟨(C1_extend_justification_gate exClaimed "too short" exExtOk).1 (by decide),
   ((C1_extend_justification_gate exClaimed "I need more time to test" exExtOk).2
      (by decide)).1⟩

/-- C2: for a claimed issue owned by the requester, an extend request
with `days` outside 1–14 returns `InvalidDuration` and leaves the
record (in particular `claim_expires_at`) unchanged, while `days` in
1–14 (with a valid justification) succeeds and extends the deadline. -/
theorem C2_extend_duration_validation (s : SIssue) (uid : Nat) (days : Int)
    (justification : String) (e : Int)
    (hClaimed : s.status = .claimed) (hOwner : s.claimed_by = some uid)
    (hExp : s.claim_expires_at = some e) :
    ((days < 1 ∨ 14 < days) →
      serverExtend s uid days justification = (s, .invalidDuration)) ∧
    (1 ≤ days → days ≤ 14 → 10 ≤ justification.length →
      serverExtend s uid days justification =
        ({ s with claim_expires_at := some (e + days * msPerDay) },
         .ok (e + days * msPerDay))) := by
  constructor
  · intro h
    simp [serverExtend, hClaimed, hOwner, h]
  · intro h1 h14 hJ
    simp [serverExtend, hClaimed, hOwner, hExp, not_or, Int.not_lt.mpr h1,
      Int.not_lt.mpr h14, Nat.not_lt.mpr hJ]

/-- Witness for C2 at `days` = 0, 15, 1, 14 on a concrete claimed record. -/
theorem C2_extend_duration_validation_witness :
    serverExtend exSClaimed 42 0 "need more time for tests" =
      (exSClaimed, .invalidDuration) ∧
    serverExtend exSClaimed 42 15 "need more time for tests" =
      (exSClaimed, .invalidDuration) ∧
    serverExtend exSClaimed 42 1 "need more time for tests" =
      ({ exSClaimed with claim_expires_at := some (7 * msPerDay + 1 * msPerDay) },
       .ok (7 * msPerDay + 1 * msPerDay)) ∧
    serverExtend exSClaimed 42 14 "need more time for tests" =
      ({ exSClaimed with claim_expires_at := some (7 * msPerDay + 14 * msPerDay) },
       .ok (7 * msPerDay + 14 * msPerDay)) :=
  ⟨(C2_extend_duration_validation exSClaimed 42 0 "need more time for tests"
      (7 * msPerDay) rfl rfl rfl).1 (Or.inl (by decide)),
   (C2_extend_duration_validation exSClaimed 42 15 "need more time for tests"
      (7 * msPerDay) rfl rfl rfl).1 (Or.inr (by decide)),
   (C2_extend_duration_validation exSClaimed 42 1 "need more time for tests"
      (7 * msPerDay) rfl rfl rfl).2 (by decide) (by decide) (by decide),
   (C2_extend_duration_validation exSClaimed 42 14 "need more time for tests"
      (7 * msPerDay) rfl rfl rfl).2 (by decide) (by decide) (by decide)⟩

/-- C3 counterexample: from an invariant-satisfying claimed issue, the
PR-completion step reaches a state with `status = completed` while
`claimed_by` is still present, so the invariant fails in a state
reachable through the four operations. -/
theorem C3_counterexample :
    Inv exClaimed ∧
    ClientReach exClaimed (handlePRSuccess exClaimed) ∧
    ¬ Inv (handlePRSuccess exClaimed) :=
  ⟨by decide,
   Relation.ReflTransGen.single (ClientStep.prSuccess exClaimed 1 rfl),
   by decide⟩

/-- C3 (amended): in every issue state reachable through the claim,
release and extend operations — with claim responses respecting the API
contract — `claimed_by` is present iff `status == claimed` and
`claim_expires_at` is present iff `claimed_by` is present; the
PR-completion step is excluded, since it sets the status to `completed`
without clearing the claim fields. -/
theorem C3_claim_invariant (s s' : Issue) (hInv : Inv s)
    (hReach : ClientReachCRE s s') : Inv s' := by
  induction hReach with
  | refl => exact hInv
  | tail _ hstep ih => exact clientStepCRE_inv hstep ih

/-- Witness for C3 (amended): a concrete claim step from an available
issue preserves the invariant. -/
theorem C3_claim_invariant_witness :
    Inv (handleClaim exAvail 1 "2024-01-01T00:00:00Z" exClaimOk) :=
  C3_claim_invariant exAvail
    (handleClaim exAvail 1 "2024-01-01T00:00:00Z" exClaimOk)
    (by decide)
    (Relation.ReflTransGen.single
      (ClientStepCRE.claim exAvail 1 "2024-01-01T00:00:00Z" exClaimOk rfl
        (fun _ => by decide)))

/-- C4: for an available issue, a successful claim response carrying
`claimed_at` and `claim_expires_at` transitions the issue to
`status = claimed`, `claimed_by = user_id`, and stores exactly the
returned timestamps as the issue's claim timestamps. -/
theorem C4_claim_success (issue : Issue) (uid : Nat) (nowISO ca ce : String)
    (result : ClaimResult)
    (hAvail : issue.status = .available)
    (hs : result.success = true)
    (hca : result.claimed_at = some ca) (hcane : ca ≠ "")
    (hce : result.claim_expires_at = some ce) (hcene : ce ≠ "") :
    handleClaim issue uid nowISO result =
      { issue with
        status := .claimed
        claimed_by := some uid
        claimed_at := some ca
        claim_expires_at := some ce } := by
  simp [handleClaim, hs, hca, hce, jsOr, jsTruthy, hcane, hcene]

/-- Witness for C4 at a concrete available issue and claim response. -/
theorem C4_claim_success_witness :
    handleClaim exAvail 1 "2024-01-02T00:00:00Z" exClaimOk =
      { exAvail with
        status := .claimed
        claimed_by := some 1
        claimed_at := some "2024-01-01T00:00:00Z"
        claim_expires_at := some "2024-01-08T00:00:00Z" } :=
  C4_claim_success exAvail 1 "2024-01-02T00:00:00Z" "2024-01-01T00:00:00Z"
    "2024-01-08T00:00:00Z" exClaimOk rfl rfl rfl (by decide) rfl (by decide)

/-- C5: for a claimed issue, a successful release by the claim holder
transitions the issue to `status = available` and clears `claimed_by`,
`claimed_at` and `claim_expires_at`. -/
theorem C5_release_clears (issue : Issue) (uid : Nat) (result : ReleaseResult)
    (hClaimed : issue.status = .claimed) (hOwn : issue.claimed_by = some uid)
    (hs : result.success = true) :
    handleRelease issue result =
      { issue with
        status := .available
        claimed_by := none
        claimed_at := none
        claim_expires_at := none } := by
  simp [handleRelease, hs]

/-- Witness for C5 at a concrete claimed issue. -/
theorem C5_release_clears_witness :
    handleRelease exClaimed exRelOk =
      { exClaimed with
        status := .available
        claimed_by := none
        claimed_at := none
        claim_expires_at := none } :=
  C5_release_clears exClaimed 1 exRelOk rfl rfl rfl

/-- C6: a successful extend with a returned new expiry mutates only the
deadline — `claim_expires_at` becomes the returned value while `status`,
`claimed_by` and `claimed_at` (and every other field) are unchanged. -/
theorem C6_extend_frame (issue : Issue) (justification : String)
    (result : ExtensionResult) (e : String)
    (hJ : 10 ≤ justification.length) (hs : result.success = true)
    (hne : result.new_expiration = some e) (hene : e ≠ "") :
    (handleExtend issue justification result).issue =
      { issue with claim_expires_at := some e } := by
  simp [handleExtend, Nat.not_lt.mpr hJ, hs, hne, jsOr, jsTruthy, hene]

/-- Witness for C6 at a concrete claimed issue and extension response. -/
theorem C6_extend_frame_witness :
    (handleExtend exClaimed "I need more time to test" exExtOk).issue =
      { exClaimed with claim_expires_at := some "2024-01-15T00:00:00Z" } :=
  C6_extend_frame exClaimed "I need more time to test" exExtOk
    "2024-01-15T00:00:00Z" (by decide) rfl rfl (by decide)

/-- C7 counterexample: a successful extension response that delivers the
new expiry under the field name `new_expires_at` is NOT stored — the
client reads only `new_expiration` (`IssueDetailClient.tsx` line 118,
`src/frontend/src/types/ai.ts` line 42), so `claim_expires_at` keeps its
old value instead of the delivered timestamp. -/
theorem C7_counterexample :
    (handleExtend exClaimed "I need more time to test"
        (extensionResultOfJson true "Deadline extended"
          [("new_expires_at", "2024-01-15T00:00:00Z")])).issue.claim_expires_at
      ≠ some "2024-01-15T00:00:00Z" := by
  decide

/-- C7 (amended): a successful extend delivers the new expiry in a field
named `new_expiration`, and the caller stores that value as the issue's
`claim_expires_at`. -/
theorem C7_new_expiration_stored (issue : Issue) (justification message e : String)
    (fields : List (String × String))
    (hJ : 10 ≤ justification.length)
    (hf : fields.find? (fun p => p.1 == "new_expiration") = some ("new_expiration", e))
    (hene : e ≠ "") :
    (handleExtend issue justification
        (extensionResultOfJson true message fields)).issue.claim_expires_at = some e := by
  simp [handleExtend, Nat.not_lt.mpr hJ, extensionResultOfJson, hf, jsOr,
    jsTruthy, hene]

/-- Witness for C7 (amended) at a concrete response object. -/
theorem C7_new_expiration_stored_witness :
    (handleExtend exClaimed "I need more time to test"
        (extensionResultOfJson true "Deadline extended"
          [("new_expiration", "2024-01-15T00:00:00Z")])).issue.claim_expires_at =
      some "2024-01-15T00:00:00Z" :=
  C7_new_expiration_stored exClaimed "I need more time to test"
    "Deadline extended" "2024-01-15T00:00:00Z"
    [("new_expiration", "2024-01-15T00:00:00Z")]
    (by decide) (by decide) (by decide)

/-- C8: for any burst of concurrent claim calls against an available
issue — serialised in an arbitrary arrival order by the storage layer's
atomic conditional update — the first call succeeds and every other
call returns `AlreadyClaimed`: exactly one success. -/
theorem C8_mutual_exclusion (s : SIssue) (base : Int) (u : Nat) (t : Int)
    (rest : List (Nat × Int)) (hAvail : s.status = .available) :
    (runClaims s ((u, t) :: rest) base).2 =
      .ok t (t + base) :: rest.map (fun _ => ClaimOutcome.alreadyClaimed) ∧
    ((runClaims s ((u, t) :: rest) base).2.countP ClaimOutcome.isOk) = 1 := by
  have hstep : serverClaim s u t base =
      ({ status := .claimed, claimed_by := some u, claimed_at := some t
         claim_expires_at := some (t + base) }, .ok t (t + base)) := by
    simp [serverClaim, hAvail]
  have habs := runClaims_claimed
    { status := .claimed, claimed_by := some u, claimed_at := some t
      claim_expires_at := some (t + base) } rest base rfl
  constructor
  · simp [runClaims, hstep, habs]
  · simp [runClaims, hstep, habs, List.countP_cons, ClaimOutcome.isOk,
      countP_isOk_const_already]

/-- Witness for C8: three concurrent claimers on a concrete available
issue — one success, two `AlreadyClaimed`. -/
theorem C8_mutual_exclusion_witness :
    (runClaims exSAvail [(1, 0), (2, 0), (3, 5)] (7 * msPerDay)).2 =
      [ClaimOutcome.ok 0 (0 + 7 * msPerDay),
       ClaimOutcome.alreadyClaimed, ClaimOutcome.alreadyClaimed] ∧
    ((runClaims exSAvail [(1, 0), (2, 0), (3, 5)] (7 * msPerDay)).2.countP
        ClaimOutcome.isOk) = 1 := by
  have h := C8_mutual_exclusion exSAvail (7 * msPerDay) 1 0 [(2, 0), (3, 5)] rfl
  exact ⟨by simpa using h.1, h.2⟩

/-- C9 counterexample: the extension-days `onChange` handler does not
always produce a positive value — the input string `"-5"` parses to
`-5`, which is truthy in JS and is stored as is. -/
theorem C9_counterexample :
    extensionDaysOnChange "-5" = -5 ∧ ¬ (0 < extensionDaysOnChange "-5") := by
  decide

/-- C9 (amended): the extension-days interface always produces a
NONZERO requested-days value: an input whose integer parse is 0 or NaN
becomes 1 (so `days = 0` is never emitted), every other parse — negative
values included — is passed through, and values above 14 are not
coerced. -/
theorem C9_days_coercion (s : String) :
    extensionDaysOnChange s ≠ 0 ∧
    (jsParseInt s = none → extensionDaysOnChange s = 1) ∧
    (jsParseInt s = some 0 → extensionDaysOnChange s = 1) ∧
    (∀ n : Int, jsParseInt s = some n → n ≠ 0 → extensionDaysOnChange s = n) := by
  unfold extensionDaysOnChange
  cases h : jsParseInt s with
  | none => simp
  | some n =>
      by_cases hn : n = 0 <;> simp [hn]

/-- Witness for C9 (amended) at the inputs `"0"`, `"abc"` and `"15"`. -/
theorem C9_days_coercion_witness :
    extensionDaysOnChange "0" = 1 ∧
    extensionDaysOnChange "abc" = 1 ∧
    extensionDaysOnChange "15" = 15 :=
  ⟨(C9_days_coercion "0").2.2.1 (by decide),
   (C9_days_coercion "abc").2.1 (by decide),
   (C9_days_coercion "15").2.2.2 15 (by decide) (by decide)⟩

/-- C10: the countdown rendering is total and non-negative — whenever
the expiry is not strictly in the future the timer renders `"Expired"`
in the expired state, and otherwise it renders (in the non-expired
state) a remaining-time string built from non-negative day, hour and
minute components. -/
theorem C10_countdown_total (nowMs expiryMs : Int) :
    (expiryMs - nowMs ≤ 0 →
      calculateTimeRemaining nowMs expiryMs =
        { isExpired := true, text := "Expired" }) ∧
    (0 < expiryMs - nowMs →
      (calculateTimeRemaining nowMs expiryMs).isExpired = false ∧
      ∃ d h m : Int, 0 ≤ d ∧ 0 ≤ h ∧ 0 ≤ m ∧
        (calculateTimeRemaining nowMs expiryMs).text = renderRemaining d h m) := by
  constructor
  · intro h
    simp [calculateTimeRemaining, h]
  · intro h
    have hnot : ¬ expiryMs - nowMs ≤ 0 := Int.not_le.mpr h
    refine ⟨by simp [calculateTimeRemaining, hnot], ?_⟩
    refine ⟨(expiryMs - nowMs).fdiv (1000 * 60 * 60 * 24),
      ((expiryMs - nowMs) % (1000 * 60 * 60 * 24)).fdiv (1000 * 60 * 60),
      ((expiryMs - nowMs) % (1000 * 60 * 60)).fdiv (1000 * 60),
      ?_, ?_, ?_, by simp [calculateTimeRemaining, hnot]⟩
    · exact Int.fdiv_nonneg (le_of_lt h) (by norm_num)
    · exact Int.fdiv_nonneg (Int.emod_nonneg _ (by norm_num)) (by norm_num)
    · exact Int.fdiv_nonneg (Int.emod_nonneg _ (by norm_num)) (by norm_num)

/-- Witness for C10 at an expired and at a future expiry. -/
theorem C10_countdown_total_witness :
    calculateTimeRemaining 0 0 = { isExpired := true, text := "Expired" } ∧
    (calculateTimeRemaining 0 90000000).isExpired = false :=
  ⟨(C10_countdown_total 0 0).1 (by decide),
   ((C10_countdown_total 0 90000000).2 (by decide)).1⟩

end OSC
